import Mathlib

/-!
Verification of the tunnel lifecycle engine of the pasrah repository
(`src/core/tunnel_manager.py`, with the persistence pieces it calls in
`src/core/config_manager.py`).

The Python code is shallowly embedded: every dictionary record becomes a
structure whose optional keys become `Option` fields (the source reads them
with `dict.get(key, default)`), process liveness and port probes become
boolean-valued environment functions sampled at the single point the source
performs the corresponding OS call, and each lifecycle operation becomes a
pure function from the manager's state and such an environment to an outcome
record that carries the returned value together with the trace of externally
visible effects (processes spawned/killed, registry and persisted-config
updates, logged events).
-/

namespace PasRah

/-- Tunnel configuration record, as stored in `config["tunnels"]` by
`config_manager.add_tunnel` and read back by `tunnel_manager` with
`dict.get` for the optional keys (`tunnel_type`, `auto_start`). -/
structure TunnelConfig where
  name : String := ""
  server_id : String := ""
  local_port : Nat := 0
  remote_port : Nat := 0
  remote_host : String := "localhost"
  /-- Source reads `tunnel.get("tunnel_type", "tcp")`: `none` models a missing key. -/
  tunnel_type : Option String := none
  status : String := "inactive"
  pid : Option Nat := none
  /-- Source reads `tunnel_config.get("auto_start", True)`: `none` models a missing key. -/
  auto_start : Option Bool := none
  deriving Repr, DecidableEq

/-- Server configuration record (`config["servers"][server_id]`). -/
structure ServerConfig where
  host : String := ""
  port : Nat := 22
  username : String := ""
  deriving Repr, DecidableEq

/-- Registry entry `self.active_tunnels[tunnel_id]`: a Python dict whose key
set differs between the TCP path (key `process`) and the UDP path (keys
`ssh_process`, `local_socat_process`, `remote_process_info`,
`ssh_connection`, `intermediate_port`, `local_tcp_port`).  Optional fields
model keys that may be absent; processes are identified by their pid and
their liveness is sampled from the environment. -/
structure TunnelInfo where
  tunnel_type : Option String := none
  process : Option Nat := none
  ssh_process : Option Nat := none
  local_socat_process : Option Nat := none
  /-- Value of `remote_process_info["pid"]` when that key is present. -/
  remote_process_pid : Option Nat := none
  ssh_connection : Option Nat := none
  pid : Nat := 0
  started_at : Nat := 0
  local_port : Nat := 0
  remote_host : String := ""
  remote_port : Nat := 0
  server_id : String := ""
  intermediate_port : Option Nat := none
  local_tcp_port : Option Nat := none
  bytes_sent : Nat := 0
  bytes_received : Nat := 0
  /-- the dict key `last_bandwidth_update` written by `_update_bandwidth_stats`. -/
  last_bandwidth_update : Option Nat := none
  deriving Repr, DecidableEq

/-- Python dict lookup `d.get(k)` on a string-keyed association list. -/
def lookupA {α : Type} : List (String × α) → String → Option α
  | [], _ => none
  | (k, v) :: rest, key => if k == key then some v else lookupA rest key

/-- Python `del d[k]` (keys are unique in a dict, so removing every match
coincides with removing the single entry). -/
def removeA {α : Type} : List (String × α) → String → List (String × α)
  | [], _ => []
  | (k, v) :: rest, key =>
      if k == key then removeA rest key else (k, v) :: removeA rest key

theorem lookupA_removeA {α : Type} (l : List (String × α)) (key : String) :
    lookupA (removeA l key) key = none := by
  induction l with
  | nil => rfl
  | cons kv rest ih =>
      obtain ⟨k, v⟩ := kv
      by_cases hk : k == key
      · simpa [removeA, hk] using ih
      · simp [removeA, lookupA, hk, ih]

theorem lookupA_eq_some_mem {α : Type} {l : List (String × α)} {key : String}
    {v : α} (h : lookupA l key = some v) : (key, v) ∈ l := by
  induction l with
  | nil => simp [lookupA] at h
  | cons kv rest ih =>
      obtain ⟨k, w⟩ := kv
      by_cases hk : k == key
      · have hkey : k = key := by simpa using hk
        simp [lookupA, hk] at h
        simp [hkey, h]
      · simp [lookupA, hk] at h
        exact List.mem_cons_of_mem _ (ih h)

/-- Embedding of `config_manager.update_tunnel_status`: sets the `status` field of the
tunnel record, and overwrites the `pid` field only when the `pid` argument
is not `None` (the body guards the pid write with `if pid is not None`). -/
def update_tunnel_status :
    List (String × TunnelConfig) → String → String → Option Nat →
      List (String × TunnelConfig)
  | [], _, _, _ => []
  | (k, t) :: rest, id, status, pid =>
      if k == id then
        (k, { t with
                status := status
                pid := match pid with
                       | some p => some p
                       | none => t.pid }) ::
          update_tunnel_status rest id status pid
      else (k, t) :: update_tunnel_status rest id status pid

theorem lookupA_update_tunnel_status (tunnels : List (String × TunnelConfig))
    (id : String) (status : String) (t : TunnelConfig)
    (h : lookupA tunnels id = some t) :
    lookupA (update_tunnel_status tunnels id status none) id =
      some { t with status := status } := by
  induction tunnels with
  | nil => simp [lookupA] at h
  | cons kv rest ih =>
      obtain ⟨k, w⟩ := kv
      by_cases hk : (k == id) = true
      · rw [lookupA, if_pos hk] at h
        obtain rfl : w = t := by simpa using h
        rw [update_tunnel_status, if_pos hk, lookupA, if_pos hk]
      · rw [lookupA, if_neg hk] at h
        rw [update_tunnel_status, if_neg hk, lookupA, if_neg hk]
        exact ih h

/-- ASCII lowercase of one character, as Python `str.lower` maps the
characters appearing in tunnel kind values. -/
def lowerChar (c : Char) : Char :=
  if 'A' ≤ c ∧ c ≤ 'Z' then Char.ofNat (c.toNat + 32) else c

/-- Python `str.lower()` on the (ASCII) tunnel kind strings. -/
def pyLower (s : String) : String := ⟨s.data.map lowerChar⟩

/-- Kind dispatch in `create_tunnel` (line 49):
`tunnel.get("tunnel_type", "tcp").lower()`, compared against `"udp"`. -/
def createDispatchKind (t : TunnelConfig) : String :=
  if pyLower (t.tunnel_type.getD "tcp") == "udp" then "udp" else "tcp"

/-- Kind dispatch in `destroy_tunnel` (line 334):
`tunnel_info.get("tunnel_type", "tcp")`, compared against `"udp"` with no
lowercasing. -/
def destroyDispatchKind (info : TunnelInfo) : String :=
  if info.tunnel_type.getD "tcp" == "udp" then "udp" else "tcp"

/-- Kind dispatch in `get_tunnel_status` (line 440). -/
def statusDispatchKind (info : TunnelInfo) : String :=
  if info.tunnel_type.getD "tcp" == "udp" then "udp" else "tcp"

/-- Kind dispatch in `_monitor_tunnels` (line 637). -/
def monitorDispatchKind (info : TunnelInfo) : String :=
  if info.tunnel_type.getD "tcp" == "udp" then "udp" else "tcp"

/-- Bounded ascending scan shared by `_find_available_port` and
`_find_local_available_port`: try `start`, `start+1`, ... for `fuel`
candidates, returning the first one the busy-probe reports free. -/
def findPortScan (busy : Nat → Bool) : Nat → Nat → Option Nat
  | _, 0 => none
  | start, fuel + 1 =>
      if busy start then findPortScan busy (start + 1) fuel else some start

/-- Embedding of `_find_available_port(ssh, start_port, end_port)`: for each `port` in
`range(start_port, end_port)` run `netstat -ln | grep :port` on the remote
host and return the first port whose grep exits nonzero (not in use);
`busy port = true` models a zero grep exit status (port in use). -/
def find_available_port (busy : Nat → Bool) (startPort endPort : Nat) :
    Option Nat :=
  findPortScan busy startPort (endPort - startPort)

/-- Embedding of `_find_local_available_port(start_port, end_port)`: same scan, with
`_is_port_in_use` as the probe. -/
def find_local_available_port (busy : Nat → Bool) (startPort endPort : Nat) :
    Option Nat :=
  findPortScan busy startPort (endPort - startPort)

theorem findPortScan_eq_some {busy : Nat → Bool} {start fuel p : Nat}
    (h : findPortScan busy start fuel = some p) :
    busy p = false ∧ start ≤ p ∧ p < start + fuel ∧
      ∀ q, start ≤ q → q < p → busy q = true := by
  induction fuel generalizing start with
  | zero => simp [findPortScan] at h
  | succ n ih =>
      by_cases hb : busy start
      · rw [findPortScan, if_pos hb] at h
        obtain ⟨h1, h2, h3, h4⟩ := ih h
        refine ⟨h1, le_trans (Nat.le_succ start) h2, by omega, ?_⟩
        intro q hq hqp
        rcases Nat.eq_or_lt_of_le hq with hq' | hq'
        · simpa [← hq'] using hb
        · exact h4 q hq' hqp
      · rw [findPortScan, if_neg hb] at h
        obtain rfl : start = p := by simpa using h
        exact ⟨by simpa using hb, le_refl _, by omega, fun q hq hqp => by omega⟩

theorem findPortScan_eq_none {busy : Nat → Bool} {start fuel : Nat}
    (h : ∀ q, start ≤ q → q < start + fuel → busy q = true) :
    findPortScan busy start fuel = none := by
  induction fuel generalizing start with
  | zero => rfl
  | succ n ih =>
      have hb : busy start = true := h start (le_refl _) (by omega)
      rw [findPortScan, if_pos hb]
      exact ih fun q hq hqn => h q (le_trans (Nat.le_succ start) hq) (by omega)

/-- Error outcomes of `create_tunnel` and its two branches; each constructor
corresponds to one returned failure message of the source. -/
inductive CreateErr
  /-- "Tunnel configuration not found" -/
  | configNotFound
  /-- "Remote server configuration not found" -/
  | serverNotFound
  /-- "Local port ... is already in use" -/
  | portInUse
  /-- "Remote server unreachable" -/
  | remoteUnreachable
  /-- "Cannot connect to remote server" -/
  | cannotConnectRemote
  /-- "Failed to install socat on remote server" -/
  | socatInstallFailed
  /-- "Cannot find available intermediate port on remote server" -/
  | noIntermediatePort
  /-- "Failed to start remote socat bridge" -/
  | remoteSpawnFailed
  /-- "SSH tunnel process failed" -/
  | sshTunnelFailed
  /-- "Cannot find available local TCP port" -/
  | noLocalTcpPort
  /-- "SSH tunnel process failed on retry" -/
  | sshTunnelFailedRetry
  /-- "Local socat bridge failed" -/
  | localSocatFailed
  /-- "TCP tunnel process failed" (process exited during the 2 s settle) -/
  | tcpProcessFailed
  /-- "TCP tunnel failed to bind to port" (readiness wait timed out) -/
  | tcpBindFailed
  deriving Repr, DecidableEq

/-- Result of a creation call: the returned ok/message pair abstracted to
`err` (`none` means success), plus the trace of externally visible effects.
Processes are traced by role tags: `"remote_relay"` (the remote socat),
`"ssh1"`/`"ssh2"` (the first and second secure-forward spawn in the UDP
path), `"local_socat"` (the local relay), `"tcp_process"` (the single TCP
forward). -/
structure CreateOutcome where
  err : Option CreateErr := none
  spawned : List String := []
  killed : List String := []
  /-- a persistent SSH session was opened via `connect_with_key`. -/
  sessionOpened : Bool := false
  /-- the source never closes that session inside `_create_udp_tunnel`. -/
  sessionClosed : Bool := false
  registered : Option (String × TunnelInfo) := none
  /-- the `update_tunnel_status(id, status, pid)` call, if any. -/
  persisted : Option (String × String × Option Nat) := none
  /-- List of `log_event("tunnel_logs", ...)` calls as (event_type, tunnel_id). -/
  events : List (String × String) := []
  deriving Repr, DecidableEq

/-- Environment sampled by `_create_udp_tunnel`: each field is the outcome
of the single OS / remote probe the source performs at that point. -/
structure UdpEnv where
  /-- Whether `ssh_manager.connect_with_key` returned a session. -/
  sshConnectOk : Bool
  /-- Whether `_ensure_socat_installed` succeeded. -/
  socatOk : Bool
  /-- remote `netstat` probe per candidate intermediate port. -/
  remoteBusy : Nat → Bool
  /-- pid echoed by `_start_remote_process`, `none` on failure. -/
  remoteSpawnPid : Option Nat
  ssh1Pid : Nat
  /-- first `ssh_process.poll() is not None` after the 2 s settle. -/
  ssh1Dies : Bool
  /-- Local `_is_port_in_use` probe during `_find_local_available_port`. -/
  localBusy : Nat → Bool
  ssh2Pid : Nat
  /-- second `ssh_process.poll() is not None` after the 2 s settle. -/
  ssh2Dies : Bool
  localSocatPid : Nat
  /-- Whether `local_socat_process.poll() is not None` after the 1 s settle. -/
  localSocatDies : Bool
  sessionId : Nat := 0

/-- Shallow embedding of `_create_udp_tunnel` (tunnel_manager.py 130-268).
The control flow is traced branch by branch; the `killed` list records the
`_kill_process` calls in order.  Note the source kills the first secure
forward unconditionally once a distinct local TCP port is found (line 198)
and restarts it on that port, so `"ssh1"` appears in `killed` even on the
success path. -/
def udpFail (e : CreateErr) (sp k : List String) (opened : Bool) :
    CreateOutcome :=
  { err := some e, spawned := sp, killed := k, sessionOpened := opened }

def create_udp_tunnel (id : String) (t : TunnelConfig) (env : UdpEnv)
    (now : Nat) : CreateOutcome :=
  if ¬ env.sshConnectOk then
    udpFail .cannotConnectRemote [] [] false
  else if ¬ env.socatOk then
    udpFail .socatInstallFailed [] [] true
  else
    match find_available_port env.remoteBusy 10000 20000 with
    | none => udpFail .noIntermediatePort [] [] true
    | some interPort =>
      match env.remoteSpawnPid with
      | none => udpFail .remoteSpawnFailed [] [] true
      | some rpid =>
        -- remote relay running; first secure-forward spawn, 2 s settle
        if env.ssh1Dies then
          udpFail .sshTunnelFailed ["remote_relay", "ssh1"] [] true
        else
          match find_local_available_port env.localBusy
              (t.local_port + 1000) (t.local_port + 2000) with
          | none =>
            udpFail .noLocalTcpPort ["remote_relay", "ssh1"] ["ssh1"] true
          | some localTcpPort =>
            -- kill ssh1, respawn on the local TCP port, 2 s settle
            if env.ssh2Dies then
              udpFail .sshTunnelFailedRetry ["remote_relay", "ssh1", "ssh2"]
                ["ssh1"] true
            else if env.localSocatDies then
              udpFail .localSocatFailed
                ["remote_relay", "ssh1", "ssh2", "local_socat"]
                ["ssh1", "ssh2"] true
            else
              { err := none
                spawned := ["remote_relay", "ssh1", "ssh2", "local_socat"]
                killed := ["ssh1"]
                sessionOpened := true
                registered := some (id,
                  { tunnel_type := some "udp"
                    ssh_process := some env.ssh2Pid
                    local_socat_process := some env.localSocatPid
                    remote_process_pid := some rpid
                    ssh_connection := some env.sessionId
                    pid := env.ssh2Pid
                    started_at := now
                    local_port := t.local_port
                    remote_host := t.remote_host
                    remote_port := t.remote_port
                    server_id := t.server_id
                    intermediate_port := some interPort
                    local_tcp_port := some localTcpPort })
                persisted := some (id, "active", some env.ssh2Pid)
                events := [("connect", id)] }

/-- Environment sampled by `_create_tcp_tunnel`. -/
structure TcpEnv where
  procPid : Nat
  /-- Whether `process.poll() is not None` after the 2 s settle. -/
  procDies : Bool
  /-- Outcome of `_wait_for_port(local_port, timeout=10)`. -/
  portReady : Bool

/-- Shallow embedding of `_create_tcp_tunnel` (tunnel_manager.py 59-128). -/
def create_tcp_tunnel (id : String) (t : TunnelConfig) (env : TcpEnv)
    (now : Nat) : CreateOutcome :=
  if env.procDies then
    { err := some .tcpProcessFailed, spawned := ["tcp_process"] }
  else if ¬ env.portReady then
    { err := some .tcpBindFailed, spawned := ["tcp_process"]
      killed := ["tcp_process"] }
  else
    { err := none
      spawned := ["tcp_process"]
      registered := some (id,
        { tunnel_type := some "tcp"
          process := some env.procPid
          pid := env.procPid
          started_at := now
          local_port := t.local_port
          remote_host := t.remote_host
          remote_port := t.remote_port
          server_id := t.server_id })
      persisted := some (id, "active", some env.procPid)
      events := [("connect", id)] }

/-- Environment of the guard phase of `create_tunnel`. -/
structure CreateEnv where
  /-- Local `_is_port_in_use` probe for the tunnel bind port. -/
  localBusy : Nat → Bool
  /-- Outcome of `_test_remote_connectivity(server.host, server.port)`. -/
  remoteReachable : Bool
  tcp : TcpEnv
  udp : UdpEnv

/-- Shallow embedding of `create_tunnel` (tunnel_manager.py 29-57): resolve
the tunnel config, resolve its server, reject a busy local bind port,
probe remote reachability, then dispatch on the lowercased tunnel type. -/
def create_tunnel (tunnels : List (String × TunnelConfig))
    (servers : List (String × ServerConfig)) (id : String)
    (env : CreateEnv) (now : Nat) : CreateOutcome :=
  match lookupA tunnels id with
  | none => { err := some .configNotFound }
  | some t =>
    match lookupA servers t.server_id with
    | none => { err := some .serverNotFound }
    | some _ =>
      if env.localBusy t.local_port then { err := some .portInUse }
      else if ¬ env.remoteReachable then { err := some .remoteUnreachable }
      else if createDispatchKind t == "udp" then
        create_udp_tunnel id t env.udp now
      else create_tcp_tunnel id t env.tcp now

/-- Externally visible effects of a destroy call, in the order the source
performs them.  `killLocal tag` is a `_kill_process` call on the process
with the given role tag; `remoteKill pid` is `ssh.exec_command("kill pid")`
on the tunnel's session; both are best-effort (they swallow failures of
already-dead processes and closed sessions) and so carry no outcome. -/
inductive DestroyAction
  | killLocal (tag : String)
  | remoteKill (pid : Nat)
  | closeSession
  | dropRegistry
  | persistStatus (status : String) (pid : Option Nat)
  | logEvent (eventType : String)
  deriving Repr, DecidableEq

/-- Result of `destroy_tunnel`: returned ok flag, the action trace, and the
updated registry and persisted tunnel table. -/
structure DestroyOutcome where
  ok : Bool
  notActive : Bool := false
  actions : List DestroyAction := []
  registry : List (String × TunnelInfo)
  tunnels : List (String × TunnelConfig)
  deriving Repr, DecidableEq

/-- Shallow embedding of `_destroy_tcp_tunnel` (tunnel_manager.py 344-369):
kill the single forwarding process, drop the registry entry, persist
status inactive with pid argument `None`, log a disconnect event. -/
def destroy_tcp_tunnel (registry : List (String × TunnelInfo))
    (tunnels : List (String × TunnelConfig)) (id : String)
    (_info : TunnelInfo) : DestroyOutcome :=
  { ok := true
    actions := [.killLocal "process", .dropRegistry,
                .persistStatus "inactive" none, .logEvent "disconnect"]
    registry := removeA registry id
    tunnels := update_tunnel_status tunnels id "inactive" none }

/-- Shallow embedding of `_destroy_udp_tunnel` (tunnel_manager.py 371-415):
kill the local socat, then the secure forward, then (if both the remote
process info and the session are present) the remote relay via the
session, close the session if present, drop the registry entry, persist
status inactive with pid argument `None`, log a disconnect event.  Each
kill is guarded by the presence of the corresponding dict key. -/
def destroy_udp_tunnel (registry : List (String × TunnelInfo))
    (tunnels : List (String × TunnelConfig)) (id : String)
    (info : TunnelInfo) : DestroyOutcome :=
  let a1 : List DestroyAction :=
    if info.local_socat_process.isSome then [.killLocal "local_socat"] else []
  let a2 : List DestroyAction :=
    if info.ssh_process.isSome then [.killLocal "ssh"] else []
  let a3 : List DestroyAction :=
    match info.remote_process_pid, info.ssh_connection with
    | some rpid, some _ => [.remoteKill rpid]
    | _, _ => []
  let a4 : List DestroyAction :=
    if info.ssh_connection.isSome then [.closeSession] else []
  { ok := true
    actions := a1 ++ a2 ++ a3 ++ a4 ++
      [.dropRegistry, .persistStatus "inactive" none, .logEvent "disconnect"]
    registry := removeA registry id
    tunnels := update_tunnel_status tunnels id "inactive" none }

/-- Shallow embedding of `destroy_tunnel` (tunnel_manager.py 327-342):
`NotActive` when the id is not registered, otherwise dispatch on the
registry entry's tunnel type. -/
def destroy_tunnel (registry : List (String × TunnelInfo))
    (tunnels : List (String × TunnelConfig)) (id : String) : DestroyOutcome :=
  match lookupA registry id with
  | none =>
      { ok := false, notActive := true, registry := registry,
        tunnels := tunnels }
  | some info =>
      if destroyDispatchKind info == "udp" then
        destroy_udp_tunnel registry tunnels id info
      else destroy_tcp_tunnel registry tunnels id info

/-- Environment of a status / monitoring probe: `procAlive pid` models
`process.poll() is None`, `portBusy port` models `_is_port_in_use(port)`. -/
structure StatusEnv where
  procAlive : Nat → Bool
  portBusy : Nat → Bool

/-- Python truthiness of `p and p.poll() is None` for an optional process. -/
def optAlive (env : StatusEnv) : Option Nat → Bool
  | some pid => env.procAlive pid
  | none => false

/-- Status report returned by `get_tunnel_status` and its branches. -/
structure StatusReport where
  status : String
  message : Option String := none
  pid : Option Nat := none
  uptime : Option Nat := none
  deriving Repr, DecidableEq

/-- Shallow embedding of `_get_tcp_tunnel_status` (tunnel_manager.py
447-476).  The source indexes `tunnel_info["process"]` directly; every
TCP-kind registry entry is created only by `_create_tcp_tunnel`, which
always stores the key, so the `getD 0` default is never exercised. -/
def get_tcp_tunnel_status (env : StatusEnv) (now : Nat) (info : TunnelInfo) :
    StatusReport :=
  if env.procAlive (info.process.getD 0) then
    if env.portBusy info.local_port then
      { status := "active", pid := some info.pid,
        uptime := some (now - info.started_at) }
    else
      { status := "error",
        message := some "Process running but port not listening" }
  else
    { status := "dead", message := some "Tunnel process died unexpectedly" }

/-- Shallow embedding of `_get_udp_tunnel_status` (tunnel_manager.py
478-503): active iff both the secure forward and the local relay are alive;
the remote relay is not re-verified. -/
def get_udp_tunnel_status (env : StatusEnv) (now : Nat) (info : TunnelInfo) :
    StatusReport :=
  if optAlive env info.ssh_process && optAlive env info.local_socat_process then
    { status := "active", pid := some info.pid,
      uptime := some (now - info.started_at) }
  else
    { status := "dead", message := some "UDP tunnel components failed" }

/-- Shallow embedding of `get_tunnel_status` (tunnel_manager.py 431-445). -/
def get_tunnel_status (registry : List (String × TunnelInfo))
    (env : StatusEnv) (now : Nat) (id : String) : StatusReport :=
  match lookupA registry id with
  | none => { status := "inactive", message := some "Tunnel is not running" }
  | some info =>
      if statusDispatchKind info == "udp" then
        get_udp_tunnel_status env now info
      else get_tcp_tunnel_status env now info

/-- Per-tunnel liveness predicate of the monitoring scan (tunnel_manager.py
639-661): a TCP tunnel is dead when its process exited or its local port
stopped listening; a UDP tunnel is dead when the secure forward or the
local relay is not alive. -/
def monitorTunnelDead (env : StatusEnv) (info : TunnelInfo) : Bool :=
  if monitorDispatchKind info == "udp" then
    !(optAlive env info.ssh_process && optAlive env info.local_socat_process)
  else
    !(env.procAlive (info.process.getD 0)) || !(env.portBusy info.local_port)

/-- A `log_event("bandwidth_stats", ...)` record. -/
structure BandwidthEvent where
  tunnel_id : String
  bytes_in : Nat
  bytes_out : Nat
  duration : Nat
  deriving Repr, DecidableEq

/-- Python `hasattr(tunnel_info, 'last_bandwidth_update')` where
`tunnel_info` is a plain dict: `hasattr` tests object *attributes*, not
dictionary keys, and a dict instance never has an attribute of that name,
so the test is `False` on every call — whether or not the dict carries the
key `last_bandwidth_update`. -/
def dictHasAttrLastBandwidthUpdate (_info : TunnelInfo) : Bool := false

/-- Shallow embedding of `_update_bandwidth_stats` (tunnel_manager.py
751-774): when the (attribute) test fails the function stores the current
time under the dict key `last_bandwidth_update` and returns; the branch
that logs a bandwidth record after 60 s is reachable only when the
attribute test succeeds. -/
def update_bandwidth_stats (id : String) (now : Nat) (info : TunnelInfo) :
    TunnelInfo × Option BandwidthEvent :=
  if ¬ dictHasAttrLastBandwidthUpdate info then
    ({ info with last_bandwidth_update := some now }, none)
  else
    match info.last_bandwidth_update with
    | some lastT =>
        if 60 ≤ now - lastT then
          ({ info with last_bandwidth_update := some now },
           some { tunnel_id := id, bytes_in := info.bytes_received,
                  bytes_out := info.bytes_sent, duration := 60 })
        else (info, none)
    | none => (info, none)

/-- Scan phase of one monitoring cycle (tunnel_manager.py 634-664): walk
the registry in order, collect the ids found dead, and for each live
tunnel run the bandwidth update; returns (dead ids, updated registry,
bandwidth records emitted). -/
def monitorScan (env : StatusEnv) (now : Nat) :
    List (String × TunnelInfo) →
      List String × List (String × TunnelInfo) × List BandwidthEvent
  | [] => ([], [], [])
  | (id, info) :: rest =>
      if monitorTunnelDead env info then
        let r := monitorScan env now rest
        (id :: r.1, (id, info) :: r.2.1, r.2.2)
      else
        let p := update_bandwidth_stats id now info
        let r := monitorScan env now rest
        (r.1, (id, p.1) :: r.2.1,
         match p.2 with
         | some e => e :: r.2.2
         | none => r.2.2)

/-- Per-dead-tunnel decision of the restart phase (tunnel_manager.py
667-685): the registry removal, the reconnect event and the `create_tunnel`
call are all inside the `if tunnel_config and tunnel_config.get
("auto_start", True)` guard. -/
structure RestartOutcome where
  removedFromRegistry : Bool
  reconnectEmitted : Bool
  createInvoked : Bool
  deriving Repr, DecidableEq

def monitorDeadTunnelStep (cfg : Option TunnelConfig) : RestartOutcome :=
  match cfg with
  | some c =>
      if c.auto_start.getD true then
        { removedFromRegistry := true, reconnectEmitted := true,
          createInvoked := true }
      else
        { removedFromRegistry := false, reconnectEmitted := false,
          createInvoked := false }
  | none =>
      { removedFromRegistry := false, reconnectEmitted := false,
        createInvoked := false }

/-- Restart phase over the dead-id list (tunnel_manager.py 667-685),
returning the registry after the cycle and the reconnect events emitted
(each emitted event is followed by a `create_tunnel` call, abstracted
here; its effects are those of `create_tunnel`). -/
def monitorRestartPhase (tunnels : List (String × TunnelConfig)) :
    List (String × TunnelInfo) → List String →
      List (String × TunnelInfo) × List (String × String)
  | registry, [] => (registry, [])
  | registry, id :: rest =>
      match lookupA tunnels id with
      | some cfg =>
          if cfg.auto_start.getD true then
            let r := monitorRestartPhase tunnels (removeA registry id) rest
            (r.1, ("reconnect", id) :: r.2)
          else monitorRestartPhase tunnels registry rest
      | none => monitorRestartPhase tunnels registry rest

/-- Case analysis of `create_udp_tunnel`: every run ends in one of the
eight failure records or in the success record (of which only the fields
needed below are characterized). -/
theorem create_udp_tunnel_outcomes (id : String) (t : TunnelConfig)
    (env : UdpEnv) (now : Nat) :
    create_udp_tunnel id t env now = udpFail .cannotConnectRemote [] [] false ∨
    create_udp_tunnel id t env now = udpFail .socatInstallFailed [] [] true ∨
    create_udp_tunnel id t env now = udpFail .noIntermediatePort [] [] true ∨
    create_udp_tunnel id t env now = udpFail .remoteSpawnFailed [] [] true ∨
    create_udp_tunnel id t env now =
      udpFail .sshTunnelFailed ["remote_relay", "ssh1"] [] true ∨
    create_udp_tunnel id t env now =
      udpFail .noLocalTcpPort ["remote_relay", "ssh1"] ["ssh1"] true ∨
    create_udp_tunnel id t env now =
      udpFail .sshTunnelFailedRetry ["remote_relay", "ssh1", "ssh2"]
        ["ssh1"] true ∨
    create_udp_tunnel id t env now =
      udpFail .localSocatFailed ["remote_relay", "ssh1", "ssh2", "local_socat"]
        ["ssh1", "ssh2"] true ∨
    ((create_udp_tunnel id t env now).err = none ∧
     (create_udp_tunnel id t env now).killed = ["ssh1"] ∧
     (create_udp_tunnel id t env now).sessionClosed = false) := by
  unfold create_udp_tunnel
  repeat' split
  all_goals simp [udpFail]

/-- Sample UDP tunnel configuration used to exercise the creation paths. -/
def c1Cfg : TunnelConfig :=
  { name := "dns", server_id := "s1", local_port := 5353,
    remote_host := "10.0.0.2", remote_port := 53, tunnel_type := some "udp" }

/-- Environment in which the remote relay starts but the first secure
forward spawn dies during the 2 s settle. -/
def c1Env : UdpEnv :=
  { sshConnectOk := true, socatOk := true, remoteBusy := fun _ => false,
    remoteSpawnPid := some 4242, ssh1Pid := 100, ssh1Dies := true,
    localBusy := fun _ => false, ssh2Pid := 101, ssh2Dies := false,
    localSocatPid := 102, localSocatDies := false, sessionId := 7 }

/-- C1 counterexample: when the secure-forward spawn fails after the remote
relay was started, `_create_udp_tunnel` returns the failure with an empty
kill trace — the already-started remote relay is NOT terminated (and the
session is not closed), contradicting the claim that all previously
started chain members are terminated before returning. -/
theorem C1_counterexample :
    (create_udp_tunnel "t1" c1Cfg c1Env 1000).err =
        some CreateErr.sshTunnelFailed ∧
    "remote_relay" ∈ (create_udp_tunnel "t1" c1Cfg c1Env 1000).spawned ∧
    (create_udp_tunnel "t1" c1Cfg c1Env 1000).killed = [] ∧
    (create_udp_tunnel "t1" c1Cfg c1Env 1000).sessionClosed = false := by
  decide

/-- C1 (amended): on every failing UDP creation run the tunnel is neither
registered nor persisted active and no connect event is emitted (status
stays inactive), but the cleanup is partial: the remote relay and the
local relay are never terminated, the session is never closed, and the
only processes ever killed are the secure-forward spawns — none on a
first-spawn failure, the first spawn after a local-port-search failure or
a retry failure, and both spawns on a local relay failure. -/
theorem C1_amended (id : String) (t : TunnelConfig) (env : UdpEnv) (now : Nat)
    (h : (create_udp_tunnel id t env now).err ≠ none) :
    (create_udp_tunnel id t env now).registered = none ∧
    (create_udp_tunnel id t env now).persisted = none ∧
    (create_udp_tunnel id t env now).events = [] ∧
    "remote_relay" ∉ (create_udp_tunnel id t env now).killed ∧
    "local_socat" ∉ (create_udp_tunnel id t env now).killed ∧
    (create_udp_tunnel id t env now).sessionClosed = false ∧
    ((create_udp_tunnel id t env now).err = some CreateErr.sshTunnelFailed →
       (create_udp_tunnel id t env now).killed = []) ∧
    ((create_udp_tunnel id t env now).err =
        some CreateErr.sshTunnelFailedRetry →
       (create_udp_tunnel id t env now).killed = ["ssh1"]) ∧
    ((create_udp_tunnel id t env now).err = some CreateErr.localSocatFailed →
       (create_udp_tunnel id t env now).killed = ["ssh1", "ssh2"]) := by
  rcases create_udp_tunnel_outcomes id t env now with
    h1 | h1 | h1 | h1 | h1 | h1 | h1 | h1 | h1 <;>
    first
      | (rw [h1]; decide)
      | exact absurd h1.1 h

/-- C1 witness: the amended statement applied to the concrete failing run
of the counterexample environment. -/
theorem C1_amended_witness :
    (create_udp_tunnel "t1" c1Cfg c1Env 1000).err ≠ none ∧
    ((create_udp_tunnel "t1" c1Cfg c1Env 1000).registered = none ∧
     (create_udp_tunnel "t1" c1Cfg c1Env 1000).persisted = none ∧
     (create_udp_tunnel "t1" c1Cfg c1Env 1000).events = [] ∧
     "remote_relay" ∉ (create_udp_tunnel "t1" c1Cfg c1Env 1000).killed ∧
     "local_socat" ∉ (create_udp_tunnel "t1" c1Cfg c1Env 1000).killed ∧
     (create_udp_tunnel "t1" c1Cfg c1Env 1000).sessionClosed = false ∧
     ((create_udp_tunnel "t1" c1Cfg c1Env 1000).err =
         some CreateErr.sshTunnelFailed →
        (create_udp_tunnel "t1" c1Cfg c1Env 1000).killed = []) ∧
     ((create_udp_tunnel "t1" c1Cfg c1Env 1000).err =
         some CreateErr.sshTunnelFailedRetry →
        (create_udp_tunnel "t1" c1Cfg c1Env 1000).killed = ["ssh1"]) ∧
     ((create_udp_tunnel "t1" c1Cfg c1Env 1000).err =
         some CreateErr.localSocatFailed →
        (create_udp_tunnel "t1" c1Cfg c1Env 1000).killed =
          ["ssh1", "ssh2"])) :=
  ⟨by decide, C1_amended "t1" c1Cfg c1Env 1000 (by decide)⟩

/-- C2 (code behavior): `_update_bandwidth_stats` never emits a bandwidth
record — because `hasattr` is applied to a dict it always takes the
store-timestamp-and-return branch, on every call and for every elapsed
time — and consequently a whole monitoring scan emits no bandwidth
records either; the claim that a record is emitted once 60 s have elapsed
since the last flush is the documented intent (the source comments say a
bandwidth entry is logged every minute) and fails on the code. -/
theorem C2_no_bandwidth_record_emitted :
    (∀ (id : String) (now : Nat) (info : TunnelInfo),
        (update_bandwidth_stats id now info).2 = none ∧
        (update_bandwidth_stats id now info).1 =
          { info with last_bandwidth_update := some now }) ∧
    (∀ (env : StatusEnv) (now : Nat)
        (registry : List (String × TunnelInfo)),
        (monitorScan env now registry).2.2 = []) := by
  constructor
  · intro id now info
    constructor <;> rfl
  · intro env now registry
    induction registry with
    | nil => rfl
    | cons kv rest ih =>
        obtain ⟨id, info⟩ := kv
        by_cases hd : monitorTunnelDead env info
        · simp [monitorScan, hd, ih]
        · simp [monitorScan, hd, ih, update_bandwidth_stats,
                dictHasAttrLastBandwidthUpdate]

/-- Dead tunnel configuration with auto-restart explicitly disabled. -/
def c3Cfg : TunnelConfig := { auto_start := some false }

/-- C3 counterexample: for a dead tunnel whose persisted configuration has
auto-restart disabled, the monitoring loop neither drops the registry
entry nor emits a reconnect event (nor restarts) — the removal and the
event sit inside the auto-restart guard, so the dead tunnel stays
registered, contradicting the claim that it is still removed. -/
theorem C3_counterexample :
    monitorDeadTunnelStep (some c3Cfg) =
      { removedFromRegistry := false, reconnectEmitted := false,
        createInvoked := false } ∧
    monitorRestartPhase [("t1", c3Cfg)] [("t1", ({} : TunnelInfo))] ["t1"] =
      ([("t1", ({} : TunnelInfo))], []) := by
  decide

/-- C3 (amended): in the restart path of the monitoring cycle the registry
removal, the reconnect event and the `create_tunnel` call stand or fall
together: each happens exactly when the persisted configuration exists
and its auto-restart flag (defaulting to enabled) is set; a dead tunnel
with auto-restart disabled is left in the registry and gets no event. -/
theorem C3_amended (tunnels : List (String × TunnelConfig))
    (registry : List (String × TunnelInfo)) (id : String) :
    (monitorDeadTunnelStep (lookupA tunnels id)).removedFromRegistry =
      (monitorDeadTunnelStep (lookupA tunnels id)).reconnectEmitted ∧
    (monitorDeadTunnelStep (lookupA tunnels id)).reconnectEmitted =
      (monitorDeadTunnelStep (lookupA tunnels id)).createInvoked ∧
    ((monitorDeadTunnelStep (lookupA tunnels id)).createInvoked = true ↔
      ∃ c, lookupA tunnels id = some c ∧ c.auto_start.getD true = true) ∧
    (∀ c, lookupA tunnels id = some c → c.auto_start = some false →
       monitorRestartPhase tunnels registry [id] = (registry, [])) := by
  cases hc : lookupA tunnels id with
  | none => simp [monitorDeadTunnelStep, monitorRestartPhase, hc]
  | some c =>
      cases hai : c.auto_start with
      | none => simp [monitorDeadTunnelStep, monitorRestartPhase, hc, hai]
      | some b =>
          cases b
          · simp [monitorDeadTunnelStep, monitorRestartPhase, hc, hai]
          · simp [monitorDeadTunnelStep, monitorRestartPhase, hc, hai]

/-- C3 witness: the amended statement at a concrete configuration with
auto-restart disabled, with its registry-retention consequence applied. -/
theorem C3_amended_witness :
    lookupA [("t1", c3Cfg)] "t1" = some c3Cfg ∧
    c3Cfg.auto_start = some false ∧
    monitorRestartPhase [("t1", c3Cfg)] [("t1", ({} : TunnelInfo))] ["t1"] =
      ([("t1", ({} : TunnelInfo))], []) :=
  ⟨by decide, rfl,
   (C3_amended [("t1", c3Cfg)] [("t1", ({} : TunnelInfo))] "t1").2.2.2 c3Cfg
     (by decide) rfl⟩

/-- C10: in the monitoring loop's restart path, a dead tunnel whose
persisted configuration lacks the auto-restart key entirely is treated as
having auto-restart enabled (the `.get("auto_start", True)` default), so
the entry is dropped, the reconnect event is emitted and `create_tunnel`
is invoked again. -/
theorem C10_missing_auto_start_restarts (c : TunnelConfig)
    (h : c.auto_start = none) :
    monitorDeadTunnelStep (some c) =
      { removedFromRegistry := true, reconnectEmitted := true,
        createInvoked := true } := by
  simp [monitorDeadTunnelStep, h]

/-- C10 witness: the default configuration record has no auto-start key
and its dead tunnel is restarted. -/
theorem C10_witness :
    ({} : TunnelConfig).auto_start = none ∧
    monitorDeadTunnelStep (some ({} : TunnelConfig)) =
      { removedFromRegistry := true, reconnectEmitted := true,
        createInvoked := true } :=
  ⟨rfl, C10_missing_auto_start_restarts {} rfl⟩

/-- C4: for a registered TCP tunnel, `get_tunnel_status` reports active iff
the forwarding process is alive and the local port still accepts
connections; otherwise it reports one of the two dead-side statuses, with
"process running but port not listening" (status "error") reported
distinctly from "process exited" (status "dead"); for an unregistered id
it reports inactive. -/
theorem C4_tcp_status (registry : List (String × TunnelInfo)) (env : StatusEnv)
    (now : Nat) (id : String) (info : TunnelInfo) (p : Nat)
    (hreg : lookupA registry id = some info)
    (hkind : statusDispatchKind info = "tcp")
    (hproc : info.process = some p) :
    ((get_tunnel_status registry env now id).status = "active" ↔
       env.procAlive p = true ∧ env.portBusy info.local_port = true) ∧
    (env.procAlive p = true → env.portBusy info.local_port = false →
       (get_tunnel_status registry env now id).status = "error") ∧
    (env.procAlive p = false →
       (get_tunnel_status registry env now id).status = "dead") ∧
    ("error" : String) ≠ "dead" ∧
    (∀ id2, lookupA registry id2 = none →
       (get_tunnel_status registry env now id2).status = "inactive") := by
  have hne : (statusDispatchKind info == "udp") = false := by
    rw [hkind]; rfl
  have hget : get_tunnel_status registry env now id =
      get_tcp_tunnel_status env now info := by
    unfold get_tunnel_status
    rw [hreg]
    simp [hne]
  have htcp : get_tcp_tunnel_status env now info =
      if env.procAlive p then
        if env.portBusy info.local_port then
          { status := "active", pid := some info.pid,
            uptime := some (now - info.started_at) }
        else
          { status := "error",
            message := some "Process running but port not listening" }
      else
        { status := "dead",
          message := some "Tunnel process died unexpectedly" } := by
    unfold get_tcp_tunnel_status
    rw [hproc]
    rfl
  refine ⟨?_, ?_, ?_, by decide, ?_⟩
  · rw [hget, htcp]
    by_cases h1 : env.procAlive p <;>
      by_cases h2 : env.portBusy info.local_port <;>
        simp [h1, h2]
  · intro h1 h2
    rw [hget, htcp]
    simp [h1, h2]
  · intro h1
    rw [hget, htcp]
    simp [h1]
  · intro id2 h2
    unfold get_tunnel_status
    rw [h2]

/-- Sample registered TCP tunnel entry (as `_create_tcp_tunnel` stores it). -/
def sampleTcpInfo : TunnelInfo :=
  { tunnel_type := some "tcp", process := some 55, pid := 55,
    local_port := 8080, started_at := 10, remote_host := "h",
    remote_port := 80, server_id := "s1" }

/-- Everything-alive probe environment. -/
def envAllAlive : StatusEnv :=
  { procAlive := fun _ => true, portBusy := fun _ => true }

/-- C4 witness: the status characterization applied to a concrete
registered TCP tunnel in an everything-alive environment. -/
theorem C4_witness :
    (((get_tunnel_status [("web", sampleTcpInfo)] envAllAlive 100
          "web").status = "active" ↔
        envAllAlive.procAlive 55 = true ∧
          envAllAlive.portBusy sampleTcpInfo.local_port = true) ∧
     (envAllAlive.procAlive 55 = true →
        envAllAlive.portBusy sampleTcpInfo.local_port = false →
        (get_tunnel_status [("web", sampleTcpInfo)] envAllAlive 100
            "web").status = "error") ∧
     (envAllAlive.procAlive 55 = false →
        (get_tunnel_status [("web", sampleTcpInfo)] envAllAlive 100
            "web").status = "dead") ∧
     ("error" : String) ≠ "dead" ∧
     (∀ id2, lookupA [("web", sampleTcpInfo)] id2 = none →
        (get_tunnel_status [("web", sampleTcpInfo)] envAllAlive 100
            id2).status = "inactive")) :=
  C4_tcp_status [("web", sampleTcpInfo)] envAllAlive 100 "web" sampleTcpInfo
    55 (by decide) (by decide) rfl

/-- C5 counterexample: destroying a registered TCP tunnel whose persisted
record carries pid 42 calls `update_tunnel_status(id, "inactive", None)`,
but since that function only overwrites the pid when the argument is not
`None`, the persisted record keeps pid 42 — the pid is not cleared,
contradicting the claim. -/
theorem C5_counterexample :
    (destroy_tunnel [("t1", sampleTcpInfo)]
        [("t1", { status := "active", pid := some 42 })] "t1").ok = true ∧
    DestroyAction.persistStatus "inactive" none ∈
      (destroy_tunnel [("t1", sampleTcpInfo)]
        [("t1", { status := "active", pid := some 42 })] "t1").actions ∧
    lookupA (destroy_tunnel [("t1", sampleTcpInfo)]
        [("t1", { status := "active", pid := some 42 })] "t1").tunnels "t1" =
      some { status := "inactive", pid := some 42 } := by
  decide

/-- C5 (amended): for every registered tunnel, destroy terminates the chain
members in reverse creation order (UDP: local relay, secure forward,
remote relay; TCP: the single process), closes the session opened for a
UDP tunnel, drops the registry entry, persists status inactive — passing
a `None` pid, which leaves the previously stored pid in the tunnel record
unchanged rather than clearing it — and emits a disconnect event. -/
theorem C5_amended (registry : List (String × TunnelInfo))
    (tunnels : List (String × TunnelConfig)) (id : String) (info : TunnelInfo)
    (hreg : lookupA registry id = some info) :
    (destroy_tunnel registry tunnels id).ok = true ∧
    (destroy_tunnel registry tunnels id).registry = removeA registry id ∧
    (destroy_tunnel registry tunnels id).tunnels =
      update_tunnel_status tunnels id "inactive" none ∧
    (∀ t, lookupA tunnels id = some t →
       lookupA (destroy_tunnel registry tunnels id).tunnels id =
         some { t with status := "inactive" }) ∧
    (destroyDispatchKind info = "udp" →
       ∀ ls ss rpid sc, info.local_socat_process = some ls →
         info.ssh_process = some ss → info.remote_process_pid = some rpid →
         info.ssh_connection = some sc →
         (destroy_tunnel registry tunnels id).actions =
           [.killLocal "local_socat", .killLocal "ssh", .remoteKill rpid,
            .closeSession, .dropRegistry, .persistStatus "inactive" none,
            .logEvent "disconnect"]) ∧
    (destroyDispatchKind info = "tcp" →
       (destroy_tunnel registry tunnels id).actions =
         [.killLocal "process", .dropRegistry,
          .persistStatus "inactive" none, .logEvent "disconnect"]) := by
  by_cases hu : (destroyDispatchKind info == "udp") = true
  · have hd : destroy_tunnel registry tunnels id =
        destroy_udp_tunnel registry tunnels id info := by
      unfold destroy_tunnel
      rw [hreg]
      simp [hu]
    have hku : destroyDispatchKind info = "udp" := by simpa using hu
    refine ⟨by rw [hd]; rfl, by rw [hd]; rfl, by rw [hd]; rfl, ?_, ?_, ?_⟩
    · intro t ht
      rw [hd]
      exact lookupA_update_tunnel_status tunnels id "inactive" t ht
    · intro _ ls ss rpid sc hls hss hrp hsc
      rw [hd]
      simp [destroy_udp_tunnel, hls, hss, hrp, hsc]
    · intro hcontra
      rw [hku] at hcontra
      exact absurd hcontra (by decide)
  · have hd : destroy_tunnel registry tunnels id =
        destroy_tcp_tunnel registry tunnels id info := by
      unfold destroy_tunnel
      rw [hreg]
      simp [hu]
    have hkt : destroyDispatchKind info ≠ "udp" := by simpa using hu
    refine ⟨by rw [hd]; rfl, by rw [hd]; rfl, by rw [hd]; rfl, ?_, ?_, ?_⟩
    · intro t ht
      rw [hd]
      exact lookupA_update_tunnel_status tunnels id "inactive" t ht
    · intro hcontra
      exact absurd hcontra hkt
    · intro _
      rw [hd]
      rfl

/-- Sample registered UDP tunnel entry with the full three-member topology
and its session, as `_create_udp_tunnel` stores it. -/
def sampleUdpInfo : TunnelInfo :=
  { tunnel_type := some "udp", ssh_process := some 201,
    local_socat_process := some 202, remote_process_pid := some 4242,
    ssh_connection := some 7, pid := 201, local_port := 5353,
    remote_host := "10.0.0.2", remote_port := 53, server_id := "s1",
    intermediate_port := some 10000, local_tcp_port := some 6353 }

/-- C5 witness: the amended statement at a concrete fully populated UDP
topology, with its per-hypothesis consequences applied. -/
theorem C5_amended_witness :
    (destroy_tunnel [("u1", sampleUdpInfo)]
        [("u1", { status := "active", pid := some 99 })] "u1").ok = true ∧
    lookupA (destroy_tunnel [("u1", sampleUdpInfo)]
        [("u1", { status := "active", pid := some 99 })] "u1").tunnels "u1" =
      some { status := "inactive", pid := some 99 } ∧
    (destroy_tunnel [("u1", sampleUdpInfo)]
        [("u1", { status := "active", pid := some 99 })] "u1").actions =
      [.killLocal "local_socat", .killLocal "ssh", .remoteKill 4242,
       .closeSession, .dropRegistry, .persistStatus "inactive" none,
       .logEvent "disconnect"] :=
  ⟨(C5_amended [("u1", sampleUdpInfo)]
      [("u1", { status := "active", pid := some 99 })] "u1" sampleUdpInfo
      (by decide)).1,
   (C5_amended [("u1", sampleUdpInfo)]
      [("u1", { status := "active", pid := some 99 })] "u1" sampleUdpInfo
      (by decide)).2.2.2.1 { status := "active", pid := some 99 } (by decide),
   (C5_amended [("u1", sampleUdpInfo)]
      [("u1", { status := "active", pid := some 99 })] "u1" sampleUdpInfo
      (by decide)).2.2.2.2.1 (by decide) 202 201 4242 7 rfl rfl rfl rfl⟩

/-- C7: for every tunnel id and every prior state, destroy followed
immediately by a status query reports inactive — the registry entry is
always cleared by a successful dispatch (the kill steps are best-effort
and cannot fail), and an unregistered id reports inactive anyway. -/
theorem C7_destroy_then_inactive (registry : List (String × TunnelInfo))
    (tunnels : List (String × TunnelConfig)) (id : String) (env : StatusEnv)
    (now : Nat) :
    (get_tunnel_status (destroy_tunnel registry tunnels id).registry env now
        id).status = "inactive" := by
  rcases hreg : lookupA registry id with _ | info
  · simp [destroy_tunnel, hreg, get_tunnel_status]
  · by_cases hu : (destroyDispatchKind info == "udp") = true <;>
      simp [destroy_tunnel, hreg, hu, destroy_udp_tunnel, destroy_tcp_tunnel,
            get_tunnel_status, lookupA_removeA]

/-- C6: for every tunnel kind and every environment, `create_tunnel` on an
id whose local bind port already answers a connection attempt returns
the port-in-use failure with no process spawned or killed, nothing
registered, nothing persisted and no event; the conclusion holds for an
arbitrary (in particular unreachable) remote, placing the check before
the reachability probe, and a missing tunnel or server configuration is
rejected first, placing it after configuration resolution. -/
theorem C6_port_in_use_guard (tunnels : List (String × TunnelConfig))
    (servers : List (String × ServerConfig)) (id : String) (env : CreateEnv)
    (now : Nat) (t : TunnelConfig)
    (ht : lookupA tunnels id = some t)
    (hs : (lookupA servers t.server_id).isSome = true)
    (hbusy : env.localBusy t.local_port = true) :
    (create_tunnel tunnels servers id env now).err =
        some CreateErr.portInUse ∧
    (create_tunnel tunnels servers id env now).spawned = [] ∧
    (create_tunnel tunnels servers id env now).killed = [] ∧
    (create_tunnel tunnels servers id env now).registered = none ∧
    (create_tunnel tunnels servers id env now).persisted = none ∧
    (create_tunnel tunnels servers id env now).events = [] ∧
    (∀ id2, lookupA tunnels id2 = none →
       (create_tunnel tunnels servers id2 env now).err =
         some CreateErr.configNotFound) ∧
    (∀ id3 t3, lookupA tunnels id3 = some t3 →
       lookupA servers t3.server_id = none →
       (create_tunnel tunnels servers id3 env now).err =
         some CreateErr.serverNotFound) := by
  obtain ⟨s, hs'⟩ := Option.isSome_iff_exists.mp hs
  refine ⟨?_, ?_, ?_, ?_, ?_, ?_, ?_, ?_⟩
  · simp [create_tunnel, ht, hs', hbusy]
  · simp [create_tunnel, ht, hs', hbusy]
  · simp [create_tunnel, ht, hs', hbusy]
  · simp [create_tunnel, ht, hs', hbusy]
  · simp [create_tunnel, ht, hs', hbusy]
  · simp [create_tunnel, ht, hs', hbusy]
  · intro id2 h2
    simp [create_tunnel, h2]
  · intro id3 t3 h3 h3s
    simp [create_tunnel, h3, h3s]

/-- Failing TCP environment used only to fill the unused branch slots of
the guard-phase witnesses. -/
def dummyTcpEnv : TcpEnv := { procPid := 1, procDies := true,
                              portReady := false }

/-- C6 witness: concrete config with its local port busy and the remote
unreachable still yields the port-in-use rejection with no effects. -/
theorem C6_witness :
    ((create_tunnel [("w", c1Cfg)] [("s1", ({} : ServerConfig))] "w"
        { localBusy := fun _ => true, remoteReachable := false,
          tcp := dummyTcpEnv, udp := c1Env } 0).err =
          some CreateErr.portInUse ∧
     (create_tunnel [("w", c1Cfg)] [("s1", ({} : ServerConfig))] "w"
        { localBusy := fun _ => true, remoteReachable := false,
          tcp := dummyTcpEnv, udp := c1Env } 0).spawned = [] ∧
     (create_tunnel [("w", c1Cfg)] [("s1", ({} : ServerConfig))] "w"
        { localBusy := fun _ => true, remoteReachable := false,
          tcp := dummyTcpEnv, udp := c1Env } 0).killed = [] ∧
     (create_tunnel [("w", c1Cfg)] [("s1", ({} : ServerConfig))] "w"
        { localBusy := fun _ => true, remoteReachable := false,
          tcp := dummyTcpEnv, udp := c1Env } 0).registered = none ∧
     (create_tunnel [("w", c1Cfg)] [("s1", ({} : ServerConfig))] "w"
        { localBusy := fun _ => true, remoteReachable := false,
          tcp := dummyTcpEnv, udp := c1Env } 0).persisted = none ∧
     (create_tunnel [("w", c1Cfg)] [("s1", ({} : ServerConfig))] "w"
        { localBusy := fun _ => true, remoteReachable := false,
          tcp := dummyTcpEnv, udp := c1Env } 0).events = [] ∧
     (∀ id2, lookupA [("w", c1Cfg)] id2 = none →
        (create_tunnel [("w", c1Cfg)] [("s1", ({} : ServerConfig))] id2
          { localBusy := fun _ => true, remoteReachable := false,
            tcp := dummyTcpEnv, udp := c1Env } 0).err =
            some CreateErr.configNotFound) ∧
     (∀ id3 t3, lookupA [("w", c1Cfg)] id3 = some t3 →
        lookupA [("s1", ({} : ServerConfig))] t3.server_id = none →
        (create_tunnel [("w", c1Cfg)] [("s1", ({} : ServerConfig))] id3
          { localBusy := fun _ => true, remoteReachable := false,
            tcp := dummyTcpEnv, udp := c1Env } 0).err =
            some CreateErr.serverNotFound)) :=
  C6_port_in_use_guard [("w", c1Cfg)] [("s1", ({} : ServerConfig))] "w"
    { localBusy := fun _ => true, remoteReachable := false,
      tcp := dummyTcpEnv, udp := c1Env } 0 c1Cfg (by decide) (by decide) rfl

/-- C8: the remote port allocator probes each candidate in ascending order
and returns the first port the remote reports free, returns nothing when
every candidate in the scanned range is in use, and in that case UDP
creation surfaces the port-exhaustion failure to the caller with nothing
spawned or registered. -/
theorem C8_find_available_port (busy : Nat → Bool) (s e p : Nat) :
    (find_available_port busy s e = some p →
       busy p = false ∧ s ≤ p ∧ p < e ∧
         ∀ q, s ≤ q → q < p → busy q = true) ∧
    ((∀ q, s ≤ q → q < e → busy q = true) →
       find_available_port busy s e = none) ∧
    (∀ (id : String) (t : TunnelConfig) (env : UdpEnv) (now : Nat),
        env.sshConnectOk = true → env.socatOk = true →
        find_available_port env.remoteBusy 10000 20000 = none →
        (create_udp_tunnel id t env now).err =
            some CreateErr.noIntermediatePort ∧
        (create_udp_tunnel id t env now).spawned = [] ∧
        (create_udp_tunnel id t env now).killed = [] ∧
        (create_udp_tunnel id t env now).registered = none) := by
  refine ⟨?_, ?_, ?_⟩
  · intro h
    obtain ⟨h1, h2, h3, h4⟩ := findPortScan_eq_some h
    exact ⟨h1, h2, by omega, h4⟩
  · intro h
    exact findPortScan_eq_none fun q hq hqe =>
      h q hq (by omega)
  · intro id t env now h1 h2 hfind
    simp [create_udp_tunnel, h1, h2, hfind, udpFail]

/-- Fully busy remote-port probe below 10002. -/
def busyW : Nat → Bool := fun q => decide (q < 10002)

/-- C8 witness: with ports 10000 and 10001 busy, the allocator returns
10002 and 10002 satisfies the first-free characterization. -/
theorem C8_witness :
    busyW 10002 = false ∧ 10000 ≤ 10002 ∧ 10002 < 20000 ∧
      (∀ q, 10000 ≤ q → q < 10002 → busyW q = true) :=
  (C8_find_available_port busyW 10000 20000 10002).1 (by decide)

/-- C9: a tunnel configuration whose kind key is missing, or holds any
value other than "udp" case-insensitively, is dispatched to the TCP
branch by `create_tunnel`; the registry entry that branch stores carries
the literal kind "tcp", so `destroy_tunnel`, `get_tunnel_status` and the
monitoring scan all dispatch it to their TCP branches as well. -/
theorem C9_kind_defaults_to_tcp (t : TunnelConfig)
    (h : t.tunnel_type = none ∨ pyLower (t.tunnel_type.getD "tcp") ≠ "udp") :
    createDispatchKind t = "tcp" ∧
    (∀ (id : String) (env : TcpEnv) (now : Nat) (rid : String)
        (info : TunnelInfo),
        (create_tcp_tunnel id t env now).registered = some (rid, info) →
        destroyDispatchKind info = "tcp" ∧ statusDispatchKind info = "tcp" ∧
          monitorDispatchKind info = "tcp") ∧
    (∀ (tunnels : List (String × TunnelConfig))
        (servers : List (String × ServerConfig)) (id : String)
        (env : CreateEnv) (now : Nat),
        lookupA tunnels id = some t →
        (lookupA servers t.server_id).isSome = true →
        env.localBusy t.local_port = false →
        env.remoteReachable = true →
        create_tunnel tunnels servers id env now =
          create_tcp_tunnel id t env.tcp now) := by
  have hlow : pyLower (t.tunnel_type.getD "tcp") ≠ "udp" := by
    rcases h with h0 | h0
    · rw [h0]; decide
    · exact h0
  have hne : (pyLower (t.tunnel_type.getD "tcp") == "udp") = false := by
    cases hbe : (pyLower (t.tunnel_type.getD "tcp") == "udp") with
    | false => rfl
    | true => exact absurd (by simpa using hbe) hlow
  have hck : createDispatchKind t = "tcp" := by
    simp [createDispatchKind, hne]
  refine ⟨hck, ?_, ?_⟩
  · intro id env now rid info hr
    by_cases h1 : env.procDies <;> by_cases h2 : env.portReady <;>
      simp [create_tcp_tunnel, h1, h2] at hr
    obtain ⟨-, rfl⟩ := hr
    exact ⟨rfl, rfl, rfl⟩
  · intro tunnels servers id env now hlook hsrv hport hreach
    obtain ⟨s, hs'⟩ := Option.isSome_iff_exists.mp hsrv
    simp [create_tunnel, hlook, hs', hport, hreach, hck]

/-- Configuration whose kind key holds a value other than "udp" up to
case: `create_tunnel` must treat it as TCP. -/
def c9Cfg : TunnelConfig :=
  { tunnel_type := some "Tcp", local_port := 8080, server_id := "s1",
    remote_host := "h", remote_port := 80 }

/-- Working TCP environment: the forward survives the settle and the port
becomes ready. -/
def c9TcpEnv : TcpEnv := { procPid := 77, procDies := false,
                           portReady := true }

/-- Registry entry produced by `create_tcp_tunnel` for `c9Cfg` under
`c9TcpEnv` at time 5. -/
def c9RegInfo : TunnelInfo :=
  { tunnel_type := some "tcp", process := some 77, pid := 77,
    started_at := 5, local_port := 8080, remote_host := "h",
    remote_port := 80, server_id := "s1" }

/-- C9 witness: the case-insensitive default applied to the concrete kind
value "Tcp", with the registry-entry consequence discharged on a
successful concrete creation. -/
theorem C9_witness :
    createDispatchKind c9Cfg = "tcp" ∧
    (destroyDispatchKind c9RegInfo = "tcp" ∧
     statusDispatchKind c9RegInfo = "tcp" ∧
     monitorDispatchKind c9RegInfo = "tcp") :=
  ⟨(C9_kind_defaults_to_tcp c9Cfg (Or.inr (by decide))).1,
   (C9_kind_defaults_to_tcp c9Cfg (Or.inr (by decide))).2.1 "w" c9TcpEnv 5
     "w" c9RegInfo (by decide)⟩

end PasRah
